import Mathlib

/-!
Verification of the depth-to-point-cloud projection nodelet
(`src/nodelets/point_cloud_xyz.cpp` of pses_kinect_utilities).

The nodelet callback `depthCb` is embedded directly from the source.
The OpenCL projection kernel (`ocl_kernel/ocl_kernel.cl`) and the
`DepthImageToPCL` engine class are not part of the source snapshot
(only their caller is), so the per-pixel projection is modelled from
the specification, over exact rationals; the invalid marker
(`NaN, NaN, NaN`) is represented by a distinguished constructor.
-/

namespace PsesKinect

/-- The per-epoch frame metadata, as filled in by `depthCb`
(`MetaData md` in the source, lines 93-100). The `NaN` field of the
source struct is represented by the `Point.invalid` constructor. -/
structure MetaData where
  width : ℕ
  height : ℕ
  n_pixels : ℕ
  depth_scaling : ℚ
  invalid_depth : ℕ
  max_depth : ℚ
  deriving DecidableEq, Repr

/-- Camera intrinsics (`Transform tf` in the source, lines 101-105). -/
structure Transform where
  cx : ℚ
  cy : ℚ
  fx : ℚ
  fy : ℚ
  deriving DecidableEq, Repr

/-- One output cloud element: a valid 3D point, or the invalid marker
(`not_a_number, not_a_number, not_a_number`). -/
inductive Point where
  | invalid : Point
  | valid (x y z : ℚ) : Point
  deriving DecidableEq, Repr

/-- Modelled from the spec: the per-pixel body of the OpenCL kernel
`depth_to_pcl` (file `ocl_kernel/ocl_kernel.cl`, absent from the source
snapshot). Pixel at row `r`, column `c` with raw depth sample `d`:
if `d` equals the invalid sentinel, or the positive max-depth clamp is
exceeded, the output is the invalid marker; otherwise
`z = d * depth_scaling`, `x = (c - cx) * z / fx`, `y = (r - cy) * z / fy`. -/
def depth_to_pcl (md : MetaData) (tf : Transform) (r c : ℕ) (d : ℕ) : Point :=
  if d = md.invalid_depth ∨ (0 < md.max_depth ∧ md.max_depth < (d : ℚ) * md.depth_scaling) then
    Point.invalid
  else
    let z : ℚ := (d : ℚ) * md.depth_scaling
    Point.valid (((c : ℚ) - tf.cx) * z / tf.fx) (((r : ℚ) - tf.cy) * z / tf.fy) z

/-- Modelled from the spec: the whole-frame projection performed by
`DepthImageToPCL::convert_to_pcl` (class not in the source snapshot):
every pixel of the row-major depth frame is projected independently,
output position `i` corresponding to input position `i`
(row `i / width`, column `i % width`). -/
def project (md : MetaData) (tf : Transform) (frame : List ℕ) : List Point :=
  (List.range frame.length).map fun i =>
    depth_to_pcl md tf (i / md.width) (i % md.width) (frame.getD i 0)

/-- The depth image message fields that `depthCb` reads
(`width`, `height`, `header.stamp` in nanoseconds, raw data). -/
structure DepthMsg where
  width : ℕ
  height : ℕ
  stamp_nsec : ℕ
  data : List ℕ
  deriving DecidableEq, Repr

/-- The camera-info message fields that `depthCb` reads through
`camera_model_` (source lines 102-105). -/
structure CameraInfo where
  cx : ℚ
  cy : ℚ
  fx : ℚ
  fy : ℚ
  deriving DecidableEq, Repr

/-- The engine state stored inside `pcl_conversion_` after
`setMetaData` / `setTFData` (source lines 106-107). -/
structure Engine where
  md : MetaData
  tf : Transform
  deriving DecidableEq, Repr

/-- The published point cloud message fields set by `depthCb`
(source lines 127-132). -/
structure CloudMsg where
  points : List Point
  is_dense : Bool
  height : ℕ
  width : ℕ
  frame_id : String
  stamp : ℕ
  deriving DecidableEq, Repr

/-- The environment of one `depthCb` invocation: which of the fallible
external steps succeed. `decodeOk`: `cv_bridge::toCvCopy` does not throw;
`haveOpenCL`: `cv::ocl::haveOpenCL()`; `setupOk`: `init_CL` /
`program_kernel` / `init_buffers` do not throw; `convertOk`:
`convert_to_pcl` does not throw; `backendLost`: whether an exception
thrown by `convert_to_pcl` indicates the backend is now unusable
(the source never inspects this). -/
structure CbEnv where
  decodeOk : Bool
  haveOpenCL : Bool
  setupOk : Bool
  convertOk : Bool
  backendLost : Bool
  deriving DecidableEq, Repr

/-- Observable outcome of one `depthCb` invocation: new nodelet state,
the message published on `cloud_out` (if any), the error strings logged
via `NODELET_ERROR`, and whether `ros::shutdown()` was requested. -/
structure CbResult where
  state : Option Engine
  published : Option CloudMsg
  errors : List String
  shutdownRequested : Bool
  deriving DecidableEq, Repr

/-- `MetaData` construction from the incoming message
(source lines 93-100): `depth_scaling = 0.001`, sentinel `0`,
`max_depth = 0`. -/
def makeMetaData (msg : DepthMsg) : MetaData :=
  { width := msg.width
    height := msg.height
    n_pixels := msg.width * msg.height
    depth_scaling := (1 : ℚ) / 1000
    invalid_depth := 0
    max_depth := 0 }

/-- `Transform` construction from the camera model (source lines 101-105). -/
def makeTransform (info : CameraInfo) : Transform :=
  { cx := info.cx, cy := info.cy, fx := info.fx, fy := info.fy }

/-- The cloud published for a frame (source lines 127-132): points from
`convert_to_pcl`, `is_dense = false`, dimensions from the input message,
`frame_id` from the `tf_frame` parameter, stamp
`toNSec() / 1000` (microseconds). -/
def mkCloud (e : Engine) (tf_frame : String) (msg : DepthMsg) : CloudMsg :=
  { points := project e.md e.tf msg.data
    is_dense := false
    height := msg.height
    width := msg.width
    frame_id := tf_frame
    stamp := msg.stamp_nsec / 1000 }

/-- `PointCloudXYZNodelet::depthCb` (source lines 69-147), embedded
step by step:
1. decode via `cv_bridge::toCvCopy`; an exception is caught and logged,
   `cv_ptr` is never used afterwards;
2. if OpenCL is unavailable: log `GPU has no OpenCL support!` and do
   nothing else (no fallback, nothing published);
3. otherwise, if `kernel_ready_` is false: set it true, install
   metadata and transform from this message, and run the OCL setup;
   a setup exception is logged and `ros::shutdown()` requested, but
   the callback still falls through to the conversion step;
4. run `convert_to_pcl` and publish the cloud; a conversion exception
   is caught and logged, nothing published for that frame, state kept. -/
def depthCb (st : Option Engine) (tf_frame : String) (msg : DepthMsg)
    (info : CameraInfo) (env : CbEnv) : CbResult :=
  let decodeErrs : List String :=
    if env.decodeOk then [] else ["cv_bridge exception"]
  if env.haveOpenCL then
    let prep : Engine × List String × Bool :=
      match st with
      | some e => (e, decodeErrs, false)
      | none =>
        let e : Engine := ⟨makeMetaData msg, makeTransform info⟩
        if env.setupOk then (e, decodeErrs, false)
        else (e, decodeErrs ++ ["An error occured during OCL setup!"], true)
    let e := prep.1
    let errs1 := prep.2.1
    let sd := prep.2.2
    if env.convertOk then
      { state := some e
        published := some (mkCloud e tf_frame msg)
        errors := errs1
        shutdownRequested := sd }
    else
      { state := some e
        published := none
        errors := errs1 ++ ["An error occured during depth to pcl conversion!"]
        shutdownRequested := sd }
  else
    { state := st
      published := none
      errors := decodeErrs ++ ["GPU has no OpenCL support!"]
      shutdownRequested := false }

/-- The spec scenario metadata:
`width=2, height=1, depth_scaling=0.001, invalid_depth_sentinel=0`. -/
def mdScenario : MetaData :=
  { width := 2, height := 1, n_pixels := 2
    depth_scaling := (1 : ℚ) / 1000, invalid_depth := 0, max_depth := 0 }

/-- The spec scenario transform: `cx=1, cy=0, fx=500, fy=500`. -/
def tfScenario : Transform := { cx := 1, cy := 0, fx := 500, fy := 500 }

/-- A concrete first frame: 2 x 1, stamp 1500 ns, samples `[0, 2000]`. -/
def msgA : DepthMsg := ⟨2, 1, 1500, [0, 2000]⟩

/-- The calibration accompanying `msgA`. -/
def infoA : CameraInfo := ⟨1, 0, 500, 500⟩

/-- A concrete later frame with different dimensions: 3 x 1. -/
def msgB : DepthMsg := ⟨3, 1, 2500, [0, 2000, 3000]⟩

/-- New calibration accompanying `msgB`, with different intrinsics. -/
def infoB : CameraInfo := ⟨2, 1, 400, 400⟩

/-- Environment in which every external step succeeds. -/
def envOK : CbEnv := ⟨true, true, true, true, false⟩

/-- Environment in which the OCL setup throws. -/
def envSetupFail : CbEnv := ⟨true, true, false, true, false⟩

/-- Environment in which `convert_to_pcl` throws an error indicating the
backend is now unusable. -/
def envConvFailLost : CbEnv := ⟨true, true, true, false, true⟩

/-- Environment in which `convert_to_pcl` throws a transient error. -/
def envConvFailTransient : CbEnv := ⟨true, true, true, false, false⟩

/-- The engine data installed by a first call on `msgA` / `infoA`. -/
def eA : Engine := ⟨makeMetaData msgA, makeTransform infoA⟩

theorem project_length (md : MetaData) (tf : Transform) (frame : List ℕ) :
    (project md tf frame).length = frame.length := by
  simp [project]

theorem project_getElem? (md : MetaData) (tf : Transform) (frame : List ℕ) (i : ℕ) :
    (project md tf frame)[i]? =
      frame[i]?.map (fun d => depth_to_pcl md tf (i / md.width) (i % md.width) d) := by
  by_cases h : i < frame.length
  · simp [project, List.getElem?_map, List.getElem?_range, h, List.getElem?_eq_getElem h,
      List.getD_eq_getElem?_getD, List.getD]
  · simp [project, List.getElem?_map, List.getElem?_eq_none (Nat.le_of_not_lt h), h,
      Nat.le_of_not_lt]

theorem depthCb_published_shape (st : Option Engine) (tff : String) (msg : DepthMsg)
    (info : CameraInfo) (env : CbEnv) :
    (depthCb st tff msg info env).published = none ∨
      ∃ e : Engine, (depthCb st tff msg info env).published = some (mkCloud e tff msg) := by
  rcases env with ⟨dec, ocl, setup, conv, lost⟩
  cases dec <;> cases ocl <;> cases setup <;> cases conv <;> cases st <;>
    first
      | (left; rfl)
      | (right; exact ⟨_, rfl⟩)

/-- C1: every pixel `i` at row `r = i / width`, column `c = i % width`
whose raw depth sample `d` is neither the invalid sentinel nor excluded
by the max-depth clamp projects to
`z = d * depth_scaling`, `x = (c - cx) * z / fx`, `y = (r - cy) * z / fy`;
and in particular the spec scenario frame `[0, 2000]` projects to
`[invalid_marker, (0, 0, 2.0)]`. -/
theorem c1_valid_pixel_projection :
    (∀ (md : MetaData) (tf : Transform) (frame : List ℕ) (i r c d : ℕ),
      r = i / md.width → c = i % md.width → frame[i]? = some d →
      d ≠ md.invalid_depth →
      ¬(0 < md.max_depth ∧ md.max_depth < (d : ℚ) * md.depth_scaling) →
      (project md tf frame)[i]? =
        some (Point.valid
          (((c : ℚ) - tf.cx) * ((d : ℚ) * md.depth_scaling) / tf.fx)
          (((r : ℚ) - tf.cy) * ((d : ℚ) * md.depth_scaling) / tf.fy)
          ((d : ℚ) * md.depth_scaling))) ∧
    project mdScenario tfScenario [0, 2000] = [Point.invalid, Point.valid 0 0 2] := by
  constructor
  · intro md tf frame i r c d hr hc hd hne hclamp
    subst hr; subst hc
    rw [project_getElem?, hd]
    simp [depth_to_pcl, hne, hclamp]
  · simp [project, depth_to_pcl, mdScenario, tfScenario, List.range_succ]
    norm_num

/-- Witness for C1: the scenario pixel at index 1 (row 0, column 1,
raw sample 2000) projects to the valid point `(0, 0, 2)`. -/
theorem c1_valid_pixel_projection_witness :
    (project mdScenario tfScenario [0, 2000])[1]? = some (Point.valid 0 0 2) := by
  have h := c1_valid_pixel_projection.1 mdScenario tfScenario [0, 2000] 1 0 1 2000
    (by decide) (by decide) (by decide) (by decide) (by simp [mdScenario])
  norm_num [mdScenario, tfScenario] at h
  exact h

/-- C2: a raw depth sample equal to the invalid sentinel always yields
exactly the invalid marker, regardless of the pixel's row and column. -/
theorem c2_sentinel_invalid :
    (∀ (md : MetaData) (tf : Transform) (frame : List ℕ) (i : ℕ),
      frame[i]? = some md.invalid_depth →
      (project md tf frame)[i]? = some Point.invalid) ∧
    (∀ (md : MetaData) (tf : Transform) (r c : ℕ),
      depth_to_pcl md tf r c md.invalid_depth = Point.invalid) := by
  constructor
  · intro md tf frame i h
    rw [project_getElem?, h]
    simp [depth_to_pcl]
  · intro md tf r c
    simp [depth_to_pcl]

/-- Witness for C2: pixel 0 of the scenario frame carries the sentinel 0
and projects to the invalid marker. -/
theorem c2_sentinel_invalid_witness :
    (project mdScenario tfScenario [0, 2000])[0]? = some Point.invalid :=
  c2_sentinel_invalid.1 mdScenario tfScenario [0, 2000] 0 (by decide)

/-- C3: with a positive `max_depth`, any sample scaling beyond it yields
the invalid marker; with `max_depth = 0` no clamp is applied and any
sample passing the sentinel check is projected to the valid point. -/
theorem c3_max_depth_clamp :
    (∀ (md : MetaData) (tf : Transform) (r c d : ℕ),
      0 < md.max_depth → md.max_depth < (d : ℚ) * md.depth_scaling →
      depth_to_pcl md tf r c d = Point.invalid) ∧
    (∀ (md : MetaData) (tf : Transform) (r c d : ℕ),
      md.max_depth = 0 → d ≠ md.invalid_depth →
      depth_to_pcl md tf r c d =
        Point.valid
          (((c : ℚ) - tf.cx) * ((d : ℚ) * md.depth_scaling) / tf.fx)
          (((r : ℚ) - tf.cy) * ((d : ℚ) * md.depth_scaling) / tf.fy)
          ((d : ℚ) * md.depth_scaling)) := by
  constructor
  · intro md tf r c d h1 h2
    simp [depth_to_pcl, h1, h2]
  · intro md tf r c d hmax hne
    simp [depth_to_pcl, hmax, hne]

/-- Witness for C3: the spec clamp scenario — `max_depth = 1.5`, sample
2000 (2.0 m) — yields the invalid marker despite a nonzero depth. -/
theorem c3_max_depth_clamp_witness :
    depth_to_pcl ⟨2, 1, 2, (1 : ℚ) / 1000, 0, 3 / 2⟩ tfScenario 0 0 2000 =
      Point.invalid :=
  c3_max_depth_clamp.1 ⟨2, 1, 2, (1 : ℚ) / 1000, 0, 3 / 2⟩ tfScenario 0 0 2000
    (by norm_num) (by norm_num)

/-- C4: projection preserves the array length, output position `i`
corresponds to input position `i` (projected with row `i / width`,
column `i % width`), and every output element is either a valid 3D
point or the invalid marker. -/
theorem c4_length_and_correspondence :
    ∀ (md : MetaData) (tf : Transform) (frame : List ℕ),
      (project md tf frame).length = frame.length ∧
      (∀ (i d : ℕ), frame[i]? = some d →
        (project md tf frame)[i]? =
          some (depth_to_pcl md tf (i / md.width) (i % md.width) d)) ∧
      (∀ p ∈ project md tf frame,
        p = Point.invalid ∨ ∃ x y z, p = Point.valid x y z) := by
  intro md tf frame
  refine ⟨project_length md tf frame, ?_, ?_⟩
  · intro i d h
    rw [project_getElem?, h]
    rfl
  · intro p _
    cases p with
    | invalid => exact Or.inl rfl
    | valid x y z => exact Or.inr ⟨x, y, z, rfl⟩

/-- Witness for C4: positional correspondence at index 1 of the
scenario frame. -/
theorem c4_length_and_correspondence_witness :
    (project mdScenario tfScenario [0, 2000])[1]? =
      some (depth_to_pcl mdScenario tfScenario 0 1 2000) := by
  have h := (c4_length_and_correspondence mdScenario tfScenario [0, 2000]).2.1 1 2000
    (by decide)
  simpa [mdScenario] using h

/-- C5 counterexample: after a first frame prepares the engine, a second
frame with different dimensions and different intrinsics does NOT trigger
re-preparation — the engine keeps the first frame's metadata and
transform, and the second frame's projection is computed with that stale
calibration. -/
theorem c5_counterexample :
    (depthCb (depthCb none "kinect2_link" msgA infoA envOK).state
        "kinect2_link" msgB infoB envOK).state = some eA ∧
    makeMetaData msgA ≠ makeMetaData msgB ∧
    makeTransform infoA ≠ makeTransform infoB ∧
    ((depthCb (depthCb none "kinect2_link" msgA infoA envOK).state
        "kinect2_link" msgB infoB envOK).published.map CloudMsg.points) =
      some (project (makeMetaData msgA) (makeTransform infoA) msgB.data) := by
  refine ⟨rfl, ?_, ?_, rfl⟩
  · simp [makeMetaData, msgA, msgB]
  · simp [makeTransform, infoA, infoB]

/-- C5 amended: preparation runs at most once per nodelet lifetime —
once `kernel_ready_` is set, the callback never re-prepares: with
unchanged metadata this is a no-op, and when new metadata or intrinsics
arrive the engine still keeps the previously installed data, so the
next projection uses the stale calibration. -/
theorem c5_no_reprepare (st : Option Engine) (e : Engine) (tff : String)
    (msg : DepthMsg) (info : CameraInfo) (env : CbEnv) (h : st = some e) :
    (depthCb st tff msg info env).state = some e ∧
    (env.haveOpenCL = true → env.convertOk = true →
      (depthCb st tff msg info env).published = some (mkCloud e tff msg)) := by
  subst h
  rcases env with ⟨dec, ocl, setup, conv, lost⟩
  cases dec <;> cases ocl <;> cases setup <;> cases conv <;>
    simp [depthCb]

/-- Witness for C5 amended: a prepared engine is untouched by a frame
carrying new metadata and intrinsics. -/
theorem c5_no_reprepare_witness :
    (depthCb (some eA) "kinect2_link" msgB infoB envOK).state = some eA ∧
    (envOK.haveOpenCL = true → envOK.convertOk = true →
      (depthCb (some eA) "kinect2_link" msgB infoB envOK).published =
        some (mkCloud eA "kinect2_link" msgB)) :=
  c5_no_reprepare (some eA) eA "kinect2_link" msgB infoB envOK rfl

/-- C6 counterexample: when the OCL setup throws, the callback requests
`ros::shutdown()` (aborting the whole process, not just the preparation
attempt), leaves `kernel_ready_` set with the engine data installed
(so no later frame retries preparation), and still falls through to the
conversion step, publishing a cloud for that very frame. -/
theorem c6_counterexample :
    (depthCb none "kinect2_link" msgA infoA envSetupFail).shutdownRequested = true ∧
    (depthCb none "kinect2_link" msgA infoA envSetupFail).state = some eA ∧
    (depthCb none "kinect2_link" msgA infoA envSetupFail).published =
      some (mkCloud eA "kinect2_link" msgA) ∧
    (depthCb (depthCb none "kinect2_link" msgA infoA envSetupFail).state
        "kinect2_link" msgB infoB envOK).state = some eA :=
  ⟨rfl, rfl, rfl, rfl⟩

/-- C6 amended: if preparation fails, the error is logged and a full
process shutdown is requested rather than merely failing the attempt;
`kernel_ready_` was already set before the attempt, so the engine
counts as prepared and preparation is never retried, and the callback
still proceeds to the conversion step, which may publish a cloud for
the same frame. -/
theorem c6_setup_failure (st : Option Engine) (tff : String) (msg : DepthMsg)
    (info : CameraInfo) (env : CbEnv)
    (h0 : st = none) (h1 : env.haveOpenCL = true) (h2 : env.setupOk = false) :
    "An error occured during OCL setup!" ∈ (depthCb st tff msg info env).errors ∧
    (depthCb st tff msg info env).shutdownRequested = true ∧
    (depthCb st tff msg info env).state =
      some ⟨makeMetaData msg, makeTransform info⟩ ∧
    (env.convertOk = true →
      (depthCb st tff msg info env).published =
        some (mkCloud ⟨makeMetaData msg, makeTransform info⟩ tff msg)) := by
  subst h0
  rcases env with ⟨dec, ocl, setup, conv, lost⟩
  cases dec <;> cases ocl <;> cases setup <;> cases conv <;>
    simp_all [depthCb]

/-- Witness for C6 amended, at the concrete failing setup environment. -/
theorem c6_setup_failure_witness :
    "An error occured during OCL setup!" ∈
      (depthCb none "kinect2_link" msgA infoA envSetupFail).errors ∧
    (depthCb none "kinect2_link" msgA infoA envSetupFail).shutdownRequested = true ∧
    (depthCb none "kinect2_link" msgA infoA envSetupFail).state =
      some ⟨makeMetaData msgA, makeTransform infoA⟩ ∧
    (envSetupFail.convertOk = true →
      (depthCb none "kinect2_link" msgA infoA envSetupFail).published =
        some (mkCloud ⟨makeMetaData msgA, makeTransform infoA⟩ "kinect2_link" msgA)) :=
  c6_setup_failure none "kinect2_link" msgA infoA envSetupFail rfl rfl rfl

/-- C7 counterexample: when `convert_to_pcl` throws an error that
indicates the backend is now unusable, the engine nevertheless remains
prepared with its state unchanged (there is no `Failed` transition),
and the whole observable outcome is identical to the one for a
transient error — the caller cannot distinguish which occurred. -/
theorem c7_counterexample :
    (depthCb (some eA) "kinect2_link" msgA infoA envConvFailLost).state = some eA ∧
    depthCb (some eA) "kinect2_link" msgA infoA envConvFailLost =
      depthCb (some eA) "kinect2_link" msgA infoA envConvFailTransient :=
  ⟨rfl, rfl⟩

/-- C7 amended: a failure during conversion after successful preparation
is logged for that single frame and nothing is published for it; the
engine always remains prepared with unchanged state, regardless of
whether the error indicated the backend is unusable, and the outcome is
identical for both error kinds — no distinction is surfaced. -/
theorem c7_convert_failure (e : Engine) (tff : String) (msg : DepthMsg)
    (info : CameraInfo) (env : CbEnv)
    (h1 : env.haveOpenCL = true) (h2 : env.convertOk = false) :
    "An error occured during depth to pcl conversion!" ∈
      (depthCb (some e) tff msg info env).errors ∧
    (depthCb (some e) tff msg info env).published = none ∧
    (depthCb (some e) tff msg info env).state = some e ∧
    (depthCb (some e) tff msg info env).shutdownRequested = false ∧
    (∀ b : Bool, depthCb (some e) tff msg info
        { env with backendLost := b } = depthCb (some e) tff msg info env) := by
  rcases env with ⟨dec, ocl, setup, conv, lost⟩
  refine ⟨?_, ?_, ?_, ?_, ?_⟩ <;>
    cases dec <;> cases ocl <;> cases setup <;> cases conv <;> cases lost <;>
      simp_all [depthCb]

/-- Witness for C7 amended, at the concrete backend-lost environment. -/
theorem c7_convert_failure_witness :
    "An error occured during depth to pcl conversion!" ∈
      (depthCb (some eA) "kinect2_link" msgA infoA envConvFailLost).errors ∧
    (depthCb (some eA) "kinect2_link" msgA infoA envConvFailLost).published = none ∧
    (depthCb (some eA) "kinect2_link" msgA infoA envConvFailLost).state = some eA ∧
    (depthCb (some eA) "kinect2_link" msgA infoA
        envConvFailLost).shutdownRequested = false ∧
    (∀ b : Bool, depthCb (some eA) "kinect2_link" msgA infoA
        { envConvFailLost with backendLost := b } =
      depthCb (some eA) "kinect2_link" msgA infoA envConvFailLost) :=
  c7_convert_failure eA "kinect2_link" msgA infoA envConvFailLost rfl rfl

/-- C8: when no OpenCL backend is available, the callback logs the
error, publishes nothing, requests no shutdown, leaves the state
unchanged, and performs no fallback projection. -/
theorem c8_no_backend (st : Option Engine) (tff : String) (msg : DepthMsg)
    (info : CameraInfo) (env : CbEnv) (h : env.haveOpenCL = false) :
    "GPU has no OpenCL support!" ∈ (depthCb st tff msg info env).errors ∧
    (depthCb st tff msg info env).published = none ∧
    (depthCb st tff msg info env).state = st ∧
    (depthCb st tff msg info env).shutdownRequested = false := by
  rcases env with ⟨dec, ocl, setup, conv, lost⟩
  cases dec <;> cases ocl <;> simp_all [depthCb]

/-- Witness for C8, at a concrete environment without OpenCL. -/
theorem c8_no_backend_witness :
    "GPU has no OpenCL support!" ∈
      (depthCb none "kinect2_link" msgA infoA ⟨true, false, true, true, false⟩).errors ∧
    (depthCb none "kinect2_link" msgA infoA
        ⟨true, false, true, true, false⟩).published = none ∧
    (depthCb none "kinect2_link" msgA infoA
        ⟨true, false, true, true, false⟩).state = none ∧
    (depthCb none "kinect2_link" msgA infoA
        ⟨true, false, true, true, false⟩).shutdownRequested = false :=
  c8_no_backend none "kinect2_link" msgA infoA ⟨true, false, true, true, false⟩ rfl

/-- C9: every published cloud carries `is_dense = false`, the input
frame's width and height, the configured `frame_id`, and the input
stamp converted from nanoseconds to microseconds. -/
theorem c9_published_fields (st : Option Engine) (tff : String) (msg : DepthMsg)
    (info : CameraInfo) (env : CbEnv) (pc : CloudMsg)
    (h : (depthCb st tff msg info env).published = some pc) :
    pc.is_dense = false ∧ pc.width = msg.width ∧ pc.height = msg.height ∧
    pc.frame_id = tff ∧ pc.stamp = msg.stamp_nsec / 1000 := by
  rcases depthCb_published_shape st tff msg info env with h0 | ⟨e, h0⟩
  · rw [h0] at h; cases h
  · rw [h0] at h
    injection h with h
    subst h
    exact ⟨rfl, rfl, rfl, rfl, rfl⟩

/-- Witness for C9: the cloud published for `msgA` in the all-success
environment. -/
theorem c9_published_fields_witness :
    (mkCloud eA "kinect2_link" msgA).is_dense = false ∧
    (mkCloud eA "kinect2_link" msgA).width = msgA.width ∧
    (mkCloud eA "kinect2_link" msgA).height = msgA.height ∧
    (mkCloud eA "kinect2_link" msgA).frame_id = "kinect2_link" ∧
    (mkCloud eA "kinect2_link" msgA).stamp = msgA.stamp_nsec / 1000 :=
  c9_published_fields (some eA) "kinect2_link" msgA infoA envOK
    (mkCloud eA "kinect2_link" msgA) rfl

/-- C10: the decode step's outcome is irrelevant to the rest of the
callback — a `cv_bridge` exception is caught and logged, `cv_ptr` is
never read, and the published cloud, the state and the shutdown flag
are identical whether or not decoding succeeded. -/
theorem c10_decode_independent (st : Option Engine) (tff : String)
    (msg : DepthMsg) (info : CameraInfo) (env : CbEnv) :
    (depthCb st tff msg info { env with decodeOk := false }).published =
      (depthCb st tff msg info { env with decodeOk := true }).published ∧
    (depthCb st tff msg info { env with decodeOk := false }).state =
      (depthCb st tff msg info { env with decodeOk := true }).state ∧
    (depthCb st tff msg info { env with decodeOk := false }).shutdownRequested =
      (depthCb st tff msg info { env with decodeOk := true }).shutdownRequested ∧
    "cv_bridge exception" ∈
      (depthCb st tff msg info { env with decodeOk := false }).errors := by
  rcases env with ⟨dec, ocl, setup, conv, lost⟩
  cases ocl <;> cases setup <;> cases conv <;> cases st <;>
    exact ⟨rfl, rfl, rfl, List.Mem.head _⟩

end PsesKinect
